import Mathlib

/-!
# Verification of the Telegram media-harvest pipeline

Shallow embedding of the harvest pipeline implemented in `bot3.py` and
`bot4.py`: media classification, the two-pass count-then-download protocol
(`harvest_and_post_media` in both files), the concurrent per-page fetch
batch of `bot4.py` (`download_and_post_media` / `download_and_post`), and
the per-channel error isolation of the orchestrator loop.

Conventions of the embedding:
* Telegram messages, media and document attributes are explicit data.
* The network download (`message.download_media`) is an environment
  `DlEnv : Msg → DlOutcome`: it may return a fresh local path (which the
  download materializes on disk), return `None`, or raise.
* The local filesystem is the list of existing paths carried in the state;
  `os.path.exists` is list membership.
* The `while True` pagination loops are written with an explicit fuel that
  the top-level entry points instantiate with the history length; a lemma
  shows this fuel always suffices, so the fueled loop is the loop.
* The concurrent batch of `bot4.py` is given both a small-step
  interleaving semantics (`BatchStep`, used for concurrency claims) and a
  deterministic whole-batch execution (`runBatch4`); the deterministic one
  is justified because every task's branch decisions depend only on the
  shared counters, which are provably constant.
-/

/-- Substring test on character lists: does the list start with `pat`?
(Embeds Python's `in` operator on strings, used for `'video' in mime_type`.) -/
def leadMatch : List Char → List Char → Bool
  | [], _ => true
  | _ :: _, [] => false
  | a :: as, b :: bs => a == b && leadMatch as bs

/-- Does the character list contain `pat` as a contiguous run? -/
def charsHave (pat : List Char) : List Char → Bool
  | [] => leadMatch pat []
  | b :: bs => leadMatch pat (b :: bs) || charsHave pat bs

/-- Python's `pat in s` substring containment on strings. -/
def strContains (s pat : String) : Bool := charsHave pat.toList s.toList

/-- One entry of `document.attributes`; Telethon attribute objects may or
may not carry a `duration` field (`hasattr(attr, "duration")`). -/
structure Attr where
  duration : Option Int
deriving DecidableEq

/-- `message.media`: a `MessageMediaPhoto`, a `MessageMediaDocument` with
its declared `mime_type` and attribute list, or some other media kind that
neither `isinstance` test matches. -/
inductive Media where
  | photo
  | document (mimeType : String) (attrs : List Attr)
  | otherMedia
deriving DecidableEq

/-- A channel message: its id and optional media payload
(`message.media` is `None` for text messages). -/
structure Msg where
  id : Nat
  media : Option Media
deriving DecidableEq

/-- `isinstance(message.media, MessageMediaPhoto)` on a media-bearing message. -/
def isPhotoMsg (m : Msg) : Bool :=
  match m.media with
  | some .photo => true
  | _ => false

/-- `isinstance(message.media, MessageMediaDocument)` together with
`'video' in message.media.document.mime_type`. -/
def isVideoMsg (m : Msg) : Bool :=
  match m.media with
  | some (.document mt _) => strContains mt "video"
  | _ => false

/-- `max_video_duration = 10 * 60` seconds (`bot4.py`). -/
def maxVideoDuration : Int := 10 * 60

/-- The attribute scan of `bot4.py` lines 116-119: some attribute has a
`duration` field whose value exceeds `max_video_duration`. -/
def hasLongDuration (attrs : List Attr) : Bool :=
  attrs.any fun a =>
    match a.duration with
    | some d => decide (d > maxVideoDuration)
    | none => false

/-- `limit = 100`: page size of every `client.get_messages` call. -/
def pageLimit : Nat := 100

/-- Body of the counting loop over one message (`bot3.py` 87-94,
`bot4.py` 187-194): photos and video-documents are tallied, the duration
attributes are never consulted. -/
def countMsg (c : Nat × Nat) (m : Msg) : Nat × Nat :=
  match m.media with
  | none => c
  | some .photo => (c.1 + 1, c.2)
  | some (.document mt _) => if strContains mt "video" then (c.1, c.2 + 1) else c
  | some .otherMedia => c

/-- The `while True` pagination loop of the counting pass, with explicit
fuel: each iteration takes one page of up to `pageLimit` messages and
stops when the page is empty (end of history). -/
def countLoop : Nat → Nat × Nat → List Msg → Nat × Nat
  | 0, c, _ => c
  | _ + 1, c, [] => c
  | fuel + 1, c, m :: rest =>
      countLoop fuel (((m :: rest).take pageLimit).foldl countMsg c)
        ((m :: rest).drop pageLimit)

/-- First pass of `harvest_and_post_media` (`bot3.py` 81-97, `bot4.py`
181-197): count photos and videos over the whole paginated history. -/
def countPass (history : List Msg) : Nat × Nat :=
  countLoop history.length (0, 0) history

/-- Outcome of one `message.download_media(file=group_dir)` call: it may
return a local path (and materialize the file there), return `None`, or
raise a download error. -/
inductive DlOutcome where
  | ok (path : String)
  | nofile
  | err
deriving DecidableEq

/-- The download environment: what `download_media` does for each message. -/
abbrev DlEnv := Msg → DlOutcome

/-- Mutable state visible to the fetch pass: the two `downloaded_*`
counters, the set of paths existing on disk (`files`), the ids of
messages for which `download_media` was invoked (`started`), and the
paths handed to `post_media_to_group` (`posted`). -/
structure FetchState where
  downloadedPhotos : Nat
  downloadedVideos : Nat
  files : List String
  started : List Nat
  posted : List String
deriving DecidableEq

/-- Which media kind a download is charged to. -/
inductive Kind where
  | photo
  | video
deriving DecidableEq

/-- Control point of one `download_and_post(message)` task of `bot4.py`:
not yet scheduled, suspended at the `await download_media` point, finished
normally, or terminated by an uncaught exception. -/
inductive TaskPhase where
  | ready (m : Msg)
  | downloading (m : Msg) (k : Kind)
  | finished
  | failed
deriving DecidableEq

/-- The synchronous prefix of `download_and_post` (`bot4.py` 96-121): the
media-kind dispatch, the `downloaded_* < download_*` quota comparison and
the video-duration scan all run without suspension; if they pass, the task
invokes `download_media` (recorded in `started`) and suspends. -/
def taskStart (qp qv : Int) (s : FetchState) (m : Msg) : FetchState × TaskPhase :=
  match m.media with
  | none => (s, .finished)
  | some .photo =>
      if (s.downloadedPhotos : Int) < qp then
        ({ s with started := m.id :: s.started }, .downloading m .photo)
      else (s, .finished)
  | some (.document mt attrs) =>
      if strContains mt "video" && decide ((s.downloadedVideos : Int) < qv) then
        if hasLongDuration attrs then (s, .finished)
        else ({ s with started := m.id :: s.started }, .downloading m .video)
      else (s, .finished)
  | some .otherMedia => (s, .finished)

/-- The continuation of `download_and_post` after `download_media`
completes (`bot4.py` 103-107 and 121-125): a raised download error leaves
the task `failed` (there is no try/except in the task body); a `None`
return is falsy and skips; a returned path has just been materialized on
disk, then `if file_name and not os.path.exists(file_name)` decides
whether to count and post. -/
def taskResume (env : DlEnv) (s : FetchState) (m : Msg) (k : Kind) :
    FetchState × TaskPhase :=
  match env m with
  | .err => (s, .failed)
  | .nofile => (s, .finished)
  | .ok p =>
      let s1 := { s with files := p :: s.files }
      if p ∈ s1.files then (s1, .finished)
      else
        match k with
        | .photo =>
            ({ s1 with downloadedPhotos := s1.downloadedPhotos + 1,
                       posted := p :: s1.posted }, .finished)
        | .video =>
            ({ s1 with downloadedVideos := s1.downloadedVideos + 1,
                       posted := p :: s1.posted }, .finished)

/-- Number of tasks currently holding the download semaphore. -/
def tasksDownloading (ts : List TaskPhase) : Nat :=
  ts.countP fun t =>
    match t with
    | .downloading _ _ => true
    | _ => false

/-- `asyncio.Semaphore(5)`: at most five download tasks in flight. -/
def semLimit : Nat := 5

/-- Small-step interleaving semantics of one `asyncio.gather` batch of
`download_and_post` tasks (`bot4.py` 92-132).  A scheduler step either
runs a ready task up to its download suspension point (if a semaphore slot
is free) or completes a suspended download.  The quota comparison and the
counter update of one task are in different steps, exactly as they sit on
opposite sides of the `await`. -/
inductive BatchStep (qp qv : Int) (env : DlEnv) :
    FetchState × List TaskPhase → FetchState × List TaskPhase → Prop where
  | start (s : FetchState) (ts : List TaskPhase) (i : Nat) (m : Msg)
      (hi : ts[i]? = some (.ready m))
      (hsem : tasksDownloading ts < semLimit) :
      BatchStep qp qv env (s, ts)
        ((taskStart qp qv s m).1, ts.set i (taskStart qp qv s m).2)
  | resume (s : FetchState) (ts : List TaskPhase) (i : Nat) (m : Msg) (k : Kind)
      (hi : ts[i]? = some (.downloading m k)) :
      BatchStep qp qv env (s, ts)
        ((taskResume env s m k).1, ts.set i (taskResume env s m k).2)

/-- All interleaved executions of one gather batch. -/
def Reaches (qp qv : Int) (env : DlEnv) :
    FetchState × List TaskPhase → FetchState × List TaskPhase → Prop :=
  Relation.ReflTransGen (BatchStep qp qv env)

/-- Deterministic execution of one `download_and_post` task to completion
(start, then — if a download was begun — its continuation); the boolean
records whether the task raised. -/
def runTask4 (qp qv : Int) (env : DlEnv) (s : FetchState) (m : Msg) :
    FetchState × Bool :=
  match taskStart qp qv s m with
  | (s1, .downloading m2 k) =>
      match taskResume env s1 m2 k with
      | (s2, .failed) => (s2, true)
      | (s2, _) => (s2, false)
  | (s1, _) => (s1, false)

/-- Deterministic execution of one page's `asyncio.gather(*tasks)`: every
task runs (gather starts them all); the flag records whether any task
raised, in which case `await asyncio.gather` re-raises.  (Task branch
decisions depend only on the shared counters, which no task ever changes
— see `reaches_counters_const` — so the interleaving order is irrelevant
to counters, files membership and download set.) -/
def runBatch4 (qp qv : Int) (env : DlEnv) :
    FetchState × Bool → List Msg → FetchState × Bool
  | acc, [] => acc
  | acc, m :: rest =>
      let r := runTask4 qp qv env acc.1 m
      runBatch4 qp qv env (r.1, acc.2 || r.2) rest

/-- The paginated second-pass loop of `bot4.py` (lines 217-225), with
explicit fuel.  `hdp`/`hdv` are the caller's `downloaded_photos` /
`downloaded_videos` locals: Python passes these ints by value, so every
page's batch receives them unchanged and any `nonlocal` increment inside
the batch dies with the call; only the filesystem and the posted set
persist across pages.  An exception escaping `asyncio.gather` aborts the
loop (there is no catch between the gather and the per-channel handler). -/
def fetchLoop4 : Nat → (qp qv : Int) → DlEnv → Nat → Nat → FetchState →
    List Msg → Except Unit FetchState
  | 0, _, _, _, _, _, w, _ => .ok w
  | _ + 1, _, _, _, _, _, w, [] => .ok w
  | fuel + 1, qp, qv, env, hdp, hdv, w, m :: rest =>
      if (runBatch4 qp qv env
            ({ w with downloadedPhotos := hdp, downloadedVideos := hdv }, false)
            ((m :: rest).take pageLimit)).2 then .error ()
      else fetchLoop4 fuel qp qv env hdp hdv
        (runBatch4 qp qv env
          ({ w with downloadedPhotos := hdp, downloadedVideos := hdv }, false)
          ((m :: rest).take pageLimit)).1
        ((m :: rest).drop pageLimit)

/-- The per-page counter arguments the caller hands to
`download_and_post_media`, page by page (instrumented trace of
`fetchLoop4`). -/
def fetchTrace4 : Nat → (qp qv : Int) → DlEnv → Nat → Nat → FetchState →
    List Msg → List (Nat × Nat)
  | 0, _, _, _, _, _, _, _ => []
  | _ + 1, _, _, _, _, _, _, [] => []
  | fuel + 1, qp, qv, env, hdp, hdv, w, m :: rest =>
      if (runBatch4 qp qv env
            ({ w with downloadedPhotos := hdp, downloadedVideos := hdv }, false)
            ((m :: rest).take pageLimit)).2 then [(hdp, hdv)]
      else (hdp, hdv) ::
        fetchTrace4 fuel qp qv env hdp hdv
          (runBatch4 qp qv env
            ({ w with downloadedPhotos := hdp, downloadedVideos := hdv }, false)
            ((m :: rest).take pageLimit)).1
          ((m :: rest).drop pageLimit)

/-- One message of the sequential second pass of `bot3.py` (lines
122-152).  There is no duration filter.  `os.path.exists(None)` raises
`TypeError` when `download_media` returns `None`, and a download error
propagates; both abort the channel (caught only by the per-channel
handler). -/
def fetchStep3 (qp qv : Int) (env : DlEnv) (s : FetchState) (m : Msg) :
    Except Unit FetchState :=
  match m.media with
  | none => .ok s
  | some .photo =>
      if (s.downloadedPhotos : Int) < qp then
        match env m with
        | .err => .error ()
        | .nofile => .error ()
        | .ok p =>
            let s1 := { s with files := p :: s.files, started := m.id :: s.started }
            if p ∈ s1.files then .ok s1
            else .ok { s1 with downloadedPhotos := s1.downloadedPhotos + 1,
                               posted := p :: s1.posted }
      else .ok s
  | some (.document mt _) =>
      if strContains mt "video" && decide ((s.downloadedVideos : Int) < qv) then
        match env m with
        | .err => .error ()
        | .nofile => .error ()
        | .ok p =>
            let s1 := { s with files := p :: s.files, started := m.id :: s.started }
            if p ∈ s1.files then .ok s1
            else .ok { s1 with downloadedVideos := s1.downloadedVideos + 1,
                               posted := p :: s1.posted }
      else .ok s
  | some .otherMedia => .ok s

/-- The inner `for message in messages` loop of `bot3.py`'s second pass. -/
def runPage3 (qp qv : Int) (env : DlEnv) :
    FetchState → List Msg → Except Unit FetchState
  | s, [] => .ok s
  | s, m :: rest =>
      match fetchStep3 qp qv env s m with
      | .error e => .error e
      | .ok s2 => runPage3 qp qv env s2 rest

/-- The paginated second-pass loop of `bot3.py` (lines 117-155), with
explicit fuel; the counters live in the same scope as the loop and are
threaded through every page. -/
def fetchLoop3 : Nat → (qp qv : Int) → DlEnv → FetchState → List Msg →
    Except Unit FetchState
  | 0, _, _, _, s, _ => .ok s
  | _ + 1, _, _, _, s, [] => .ok s
  | fuel + 1, qp, qv, env, s, m :: rest =>
      match runPage3 qp qv env s ((m :: rest).take pageLimit) with
      | .error e => .error e
      | .ok s2 => fetchLoop3 fuel qp qv env s2 ((m :: rest).drop pageLimit)

/-- `download_photos = min(download_photos, photo_count)` (`bot3.py`
107-108, `bot4.py` 207-208): requested counts come from `int(input(...))`
and are arbitrary integers; availability is the counting-pass tally. -/
def downloadQuota (requested : Int) (available : Nat) : Int :=
  min requested (available : Int)

/-- Everything the environment supplies for one selected channel: its
display name, whether `os.makedirs` raises, whether the history scan
raises, the channel's message history, the behavior of `download_media`
on its messages, and the operator-requested photo/video counts. -/
structure ChannelEnv where
  name : String
  mkdirFails : Bool
  scanFails : Bool
  history : List Msg
  dlEnv : DlEnv
  reqPhotos : Int
  reqVideos : Int

/-- The per-kind quotas a channel's fetch pass runs with: computed from
the operator request and the counting-pass tally. -/
def channelQuotas (ch : ChannelEnv) : Int × Int :=
  (downloadQuota ch.reqPhotos (countPass ch.history).1,
   downloadQuota ch.reqVideos (countPass ch.history).2)

/-- The body of `bot4.py`'s per-channel `try:` block (lines 170-227):
make the directory, run the counting pass, compute the quotas, run the
paginated concurrent fetch.  The summary logged at the end reflects the
caller's own `downloaded_photos`/`downloaded_videos` locals, which start
at 0 and are passed to each page's batch by value.  `fs0` is the disk
contents when the channel starts. -/
def processChannel4 (fs0 : List String) (ch : ChannelEnv) :
    Except Unit ((Nat × Nat) × FetchState) :=
  if ch.mkdirFails then .error ()
  else if ch.scanFails then .error ()
  else
    match fetchLoop4 ch.history.length (channelQuotas ch).1 (channelQuotas ch).2
        ch.dlEnv 0 0 ⟨0, 0, fs0, [], []⟩ ch.history with
    | .error e => .error e
    | .ok w => .ok ((0, 0), w)

/-- The body of `bot3.py`'s per-channel `try:` block (lines 70-157); the
summary counters are the loop's own, threaded through all pages. -/
def processChannel3 (fs0 : List String) (ch : ChannelEnv) :
    Except Unit ((Nat × Nat) × FetchState) :=
  if ch.mkdirFails then .error ()
  else if ch.scanFails then .error ()
  else
    match fetchLoop3 ch.history.length (channelQuotas ch).1 (channelQuotas ch).2
        ch.dlEnv ⟨0, 0, fs0, [], []⟩ ch.history with
    | .error e => .error e
    | .ok s => .ok ((s.downloadedPhotos, s.downloadedVideos), s)

/-- The orchestrator loop of `bot4.py` (`for group in selected_groups:
try ... except`): each channel is processed inside its own handler; a
failed channel is recorded as `none` and the loop continues. -/
def runHarvest4 (fs0 : List String) (chs : List ChannelEnv) :
    List (String × Option ((Nat × Nat) × FetchState)) :=
  chs.map fun ch =>
    (ch.name,
     match processChannel4 fs0 ch with
     | .ok r => some r
     | .error _ => none)

/-- The orchestrator loop of `bot3.py`, identical error isolation. -/
def runHarvest3 (fs0 : List String) (chs : List ChannelEnv) :
    List (String × Option ((Nat × Nat) × FetchState)) :=
  chs.map fun ch =>
    (ch.name,
     match processChannel3 fs0 ch with
     | .ok r => some r
     | .error _ => none)

/-- A 700-second video message (duration above the 600-second threshold). -/
def vid700 : Msg := ⟨1, some (.document "video/mp4" [⟨some 700⟩])⟩

/-- A video message whose attributes declare no duration. -/
def vidUnknown : Msg := ⟨2, some (.document "video/mp4" [⟨none⟩])⟩

/-- Two photo messages used in the quota race scenario. -/
def photoMsgA : Msg := ⟨3, some .photo⟩

/-- Second photo message of the race scenario. -/
def photoMsgB : Msg := ⟨4, some .photo⟩

/-- A photo message whose download raises. -/
def mErr : Msg := ⟨9, some .photo⟩

/-- Download environment where every download succeeds with path `f`. -/
def envRace : DlEnv := fun _ => .ok "f"

/-- Download environment where every download raises. -/
def envErr : DlEnv := fun _ => .err

/-- The empty initial fetch state: nothing downloaded, empty disk. -/
def s0 : FetchState := ⟨0, 0, [], [], []⟩

/-- State after the first race task passed the quota check and invoked
its download. -/
def raceMid : FetchState := ⟨0, 0, [], [3], []⟩

/-- State after both race tasks passed the quota check and invoked their
downloads. -/
def raceBoth : FetchState := ⟨0, 0, [], [4, 3], []⟩

/-- State after both race downloads completed: files on disk, both
existence checks were true, neither counter moved. -/
def raceDone : FetchState := ⟨0, 0, ["f", "f"], [4, 3], []⟩

/-- A channel whose directory creation fails. -/
def chFail : ChannelEnv := ⟨"A", true, false, [], envRace, 5, 5⟩

/-- A healthy channel with one photo message. -/
def chOk : ChannelEnv := ⟨"B", false, false, [photoMsgA], envRace, 5, 5⟩

/-- With fuel at least the history length, the paginated counting loop is
exactly a fold over the whole history: every page is observed and nothing
is skipped. -/
theorem countLoop_eq_foldl :
    ∀ (fuel : Nat) (l : List Msg), l.length ≤ fuel →
      ∀ c, countLoop fuel c l = l.foldl countMsg c := by
  intro fuel
  induction fuel with
  | zero =>
      intro l hl c
      cases l with
      | nil => rfl
      | cons a t => simp at hl
  | succ n ih =>
      intro l hl c
      cases l with
      | nil => rfl
      | cons a t =>
          rw [countLoop]
          rw [ih ((a :: t).drop pageLimit)
            (by simp only [List.length_drop, List.length_cons, pageLimit] at *; omega)]
          rw [← List.foldl_append]
          rw [List.take_append_drop]

/-- The counting pass equals the fold of `countMsg` over the full history. -/
theorem countPass_eq_foldl (history : List Msg) :
    countPass history = history.foldl countMsg (0, 0) :=
  countLoop_eq_foldl history.length history le_rfl (0, 0)

/-- The count fold tallies exactly the photo-classified and
video-classified messages. -/
theorem foldl_countMsg (l : List Msg) :
    ∀ c, l.foldl countMsg c =
      (c.1 + l.countP isPhotoMsg, c.2 + l.countP isVideoMsg) := by
  induction l with
  | nil => intro c; simp
  | cons m t ih =>
      intro c
      rw [List.foldl_cons, ih]
      obtain ⟨mid, mm⟩ := m
      rcases mm with _ | med
      · simp [countMsg, List.countP_cons, isPhotoMsg, isVideoMsg]
      · cases med with
        | photo => simp [countMsg, List.countP_cons, isPhotoMsg, isVideoMsg]; omega
        | document mt attrs =>
            by_cases hv : strContains mt "video" = true
            · simp [countMsg, List.countP_cons, isPhotoMsg, isVideoMsg, hv]; omega
            · simp [countMsg, List.countP_cons, isPhotoMsg, isVideoMsg, hv]
        | otherMedia => simp [countMsg, List.countP_cons, isPhotoMsg, isVideoMsg]

/-- The counting pass tallies every message of the history by classified
kind. -/
theorem countPass_spec (history : List Msg) :
    countPass history = (history.countP isPhotoMsg, history.countP isVideoMsg) := by
  rw [countPass_eq_foldl, foldl_countMsg]
  simp

/-- The synchronous prefix of a task reads the shared counters but never
writes them, and touches neither the disk nor the posted set. -/
theorem taskStart_state (qp qv : Int) (s : FetchState) (m : Msg) :
    (taskStart qp qv s m).1.downloadedPhotos = s.downloadedPhotos ∧
    (taskStart qp qv s m).1.downloadedVideos = s.downloadedVideos ∧
    (taskStart qp qv s m).1.files = s.files ∧
    (taskStart qp qv s m).1.posted = s.posted := by
  obtain ⟨mid, mm⟩ := m
  rcases mm with _ | mm
  · simp [taskStart]
  cases mm with
  | photo =>
      simp only [taskStart]
      split <;> simp
  | document mt attrs =>
      simp only [taskStart]
      split
      · split <;> simp
      · simp
  | otherMedia => simp [taskStart]

/-- Because the existence test runs on the filesystem that the download
itself just wrote to, the task continuation never increments a counter
and never posts. -/
theorem taskResume_state (env : DlEnv) (s : FetchState) (m : Msg) (k : Kind) :
    (taskResume env s m k).1.downloadedPhotos = s.downloadedPhotos ∧
    (taskResume env s m k).1.downloadedVideos = s.downloadedVideos ∧
    (taskResume env s m k).1.posted = s.posted := by
  unfold taskResume
  cases henv : env m with
  | ok p => simp
  | nofile => simp
  | err => simp

/-- A task whose download does not raise finishes normally. -/
theorem taskResume_phase (env : DlEnv) (s : FetchState) (m : Msg) (k : Kind)
    (h : env m ≠ .err) : (taskResume env s m k).2 = .finished := by
  unfold taskResume
  cases henv : env m with
  | ok p => simp
  | nofile => simp
  | err => exact absurd henv h

/-- A task only ever suspends on the download of its own message. -/
theorem taskStart_downloading (qp qv : Int) (s : FetchState) (m m2 : Msg) (k : Kind)
    (h : (taskStart qp qv s m).2 = .downloading m2 k) : m2 = m := by
  obtain ⟨mid, mm⟩ := m
  rcases mm with _ | mm
  · simp [taskStart] at h
  cases mm with
  | photo =>
      simp only [taskStart] at h
      split at h
      · cases h; rfl
      · cases h
  | document mt attrs =>
      simp only [taskStart] at h
      split at h
      · split at h
        · cases h
        · cases h; rfl
      · cases h
  | otherMedia => simp [taskStart] at h

/-- In every interleaving of one gather batch, the shared
`downloaded_photos` / `downloaded_videos` counters keep their initial
values: no step of any task ever changes them. -/
theorem reaches_counters_const (qp qv : Int) (env : DlEnv)
    (a b : FetchState × List TaskPhase) (h : Reaches qp qv env a b) :
    b.1.downloadedPhotos = a.1.downloadedPhotos ∧
    b.1.downloadedVideos = a.1.downloadedVideos := by
  induction h with
  | refl => exact ⟨rfl, rfl⟩
  | tail hab hbc ih =>
      cases hbc with
      | start s ts i m hi hsem =>
          refine ⟨?_, ?_⟩
          · rw [show ((taskStart qp qv s m).1,
                ts.set i (taskStart qp qv s m).2).1 = (taskStart qp qv s m).1 from rfl,
              (taskStart_state qp qv s m).1]
            exact ih.1
          · rw [show ((taskStart qp qv s m).1,
                ts.set i (taskStart qp qv s m).2).1 = (taskStart qp qv s m).1 from rfl,
              (taskStart_state qp qv s m).2.1]
            exact ih.2
      | resume s ts i m k hi =>
          refine ⟨?_, ?_⟩
          · rw [show ((taskResume env s m k).1,
                ts.set i (taskResume env s m k).2).1 = (taskResume env s m k).1 from rfl,
              (taskResume_state env s m k).1]
            exact ih.1
          · rw [show ((taskResume env s m k).1,
                ts.set i (taskResume env s m k).2).1 = (taskResume env s m k).1 from rfl,
              (taskResume_state env s m k).2.1]
            exact ih.2

/-- A task whose download does not raise never sets the batch failure
flag. -/
theorem runTask4_flag (qp qv : Int) (env : DlEnv) (s : FetchState) (m : Msg)
    (h : env m ≠ .err) : (runTask4 qp qv env s m).2 = false := by
  rcases hstart : taskStart qp qv s m with ⟨s1, ph1⟩
  cases ph1 with
  | downloading m2 k =>
      have hm : m2 = m := taskStart_downloading qp qv s m m2 k (by rw [hstart])
      subst hm
      have hph := taskResume_phase env s1 m2 k h
      rcases hres : taskResume env s1 m2 k with ⟨s2, ph2⟩
      rw [hres] at hph
      simp only at hph
      subst hph
      simp [runTask4, hstart, hres]
  | ready m2 => simp [runTask4, hstart]
  | finished => simp [runTask4, hstart]
  | failed => simp [runTask4, hstart]

/-- A deterministic task run never changes the shared counters. -/
theorem runTask4_counters (qp qv : Int) (env : DlEnv) (s : FetchState) (m : Msg) :
    (runTask4 qp qv env s m).1.downloadedPhotos = s.downloadedPhotos ∧
    (runTask4 qp qv env s m).1.downloadedVideos = s.downloadedVideos := by
  have hs := taskStart_state qp qv s m
  rcases hstart : taskStart qp qv s m with ⟨s1, ph1⟩
  rw [hstart] at hs
  cases ph1 with
  | downloading m2 k =>
      have hr := taskResume_state env s1 m2 k
      rcases hres : taskResume env s1 m2 k with ⟨s2, ph2⟩
      rw [hres] at hr
      cases ph2 <;>
        simp only [runTask4, hstart, hres] <;>
        exact ⟨hr.1.trans hs.1, hr.2.1.trans hs.2.1⟩
  | ready m2 =>
      simp only [runTask4, hstart]
      exact ⟨hs.1, hs.2.1⟩
  | finished =>
      simp only [runTask4, hstart]
      exact ⟨hs.1, hs.2.1⟩
  | failed =>
      simp only [runTask4, hstart]
      exact ⟨hs.1, hs.2.1⟩

/-- If no message of the page has a raising download, the gather batch
keeps its failure flag. -/
theorem runBatch4_flag (qp qv : Int) (env : DlEnv) :
    ∀ (msgs : List Msg) (s : FetchState) (b : Bool),
      (∀ m ∈ msgs, env m ≠ .err) →
      (runBatch4 qp qv env (s, b) msgs).2 = b := by
  intro msgs
  induction msgs with
  | nil => intro s b h; rfl
  | cons m rest ih =>
      intro s b h
      rw [runBatch4]
      have hf := runTask4_flag qp qv env s m (h m (by simp))
      simp only [hf, Bool.or_false]
      exact ih (runTask4 qp qv env s m).1 b fun m2 hm2 => h m2 (by simp [hm2])

/-- A gather batch never changes the shared counters. -/
theorem runBatch4_counters (qp qv : Int) (env : DlEnv) :
    ∀ (msgs : List Msg) (s : FetchState) (b : Bool),
      (runBatch4 qp qv env (s, b) msgs).1.downloadedPhotos = s.downloadedPhotos ∧
      (runBatch4 qp qv env (s, b) msgs).1.downloadedVideos = s.downloadedVideos := by
  intro msgs
  induction msgs with
  | nil => intro s b; exact ⟨rfl, rfl⟩
  | cons m rest ih =>
      intro s b
      rw [runBatch4]
      have h1 := ih (runTask4 qp qv env s m).1 (b || (runTask4 qp qv env s m).2)
      have h2 := runTask4_counters qp qv env s m
      exact ⟨h1.1.trans h2.1, h1.2.trans h2.2⟩

/-- If no download in the history raises, the whole paginated fetch of
`bot4.py` completes without an exception. -/
theorem fetchLoop4_ok (qp qv : Int) (env : DlEnv) (hdp hdv : Nat)
    (h : ∀ m, env m ≠ .err) :
    ∀ (fuel : Nat) (w : FetchState) (l : List Msg),
      ∃ w2, fetchLoop4 fuel qp qv env hdp hdv w l = .ok w2 := by
  intro fuel
  induction fuel with
  | zero => intro w l; exact ⟨w, rfl⟩
  | succ n ih =>
      intro w l
      cases l with
      | nil => exact ⟨w, rfl⟩
      | cons m rest =>
          rw [fetchLoop4]
          rw [runBatch4_flag qp qv env ((m :: rest).take pageLimit) _ false
            (fun m2 _ => h m2)]
          exact ih _ _

/-- A `bot3.py` fetch step that completes without raising never changes
the downloaded counters: the existence check always sees the file the
download just wrote. -/
theorem fetchStep3_counters (qp qv : Int) (env : DlEnv) (s : FetchState) (m : Msg)
    (s2 : FetchState) (h : fetchStep3 qp qv env s m = .ok s2) :
    s2.downloadedPhotos = s.downloadedPhotos ∧
    s2.downloadedVideos = s.downloadedVideos ∧
    s2.posted = s.posted := by
  obtain ⟨mid, mm⟩ := m
  rcases mm with _ | mm
  · simp only [fetchStep3] at h
    simp at h
    subst h
    exact ⟨rfl, rfl, rfl⟩
  cases mm with
  | photo =>
      simp only [fetchStep3] at h
      split at h
      · cases henv : env ⟨mid, some Media.photo⟩ with
        | ok p =>
            rw [henv] at h
            simp at h
            subst h
            exact ⟨rfl, rfl, rfl⟩
        | nofile => rw [henv] at h; simp at h
        | err => rw [henv] at h; simp at h
      · simp at h
        subst h
        exact ⟨rfl, rfl, rfl⟩
  | document mt attrs =>
      simp only [fetchStep3] at h
      split at h
      · cases henv : env ⟨mid, some (Media.document mt attrs)⟩ with
        | ok p =>
            rw [henv] at h
            simp at h
            subst h
            exact ⟨rfl, rfl, rfl⟩
        | nofile => rw [henv] at h; simp at h
        | err => rw [henv] at h; simp at h
      · simp at h
        subst h
        exact ⟨rfl, rfl, rfl⟩
  | otherMedia =>
      simp only [fetchStep3] at h
      simp at h
      subst h
      exact ⟨rfl, rfl, rfl⟩

/-- One page of the `bot3.py` fetch loop preserves the counters. -/
theorem runPage3_counters (qp qv : Int) (env : DlEnv) :
    ∀ (l : List Msg) (s s2 : FetchState), runPage3 qp qv env s l = .ok s2 →
      s2.downloadedPhotos = s.downloadedPhotos ∧
      s2.downloadedVideos = s.downloadedVideos := by
  intro l
  induction l with
  | nil =>
      intro s s2 h
      simp only [runPage3] at h
      simp at h
      subst h
      exact ⟨rfl, rfl⟩
  | cons m rest ih =>
      intro s s2 h
      rw [runPage3] at h
      cases hstep : fetchStep3 qp qv env s m with
      | error e => rw [hstep] at h; simp at h
      | ok s3 =>
          rw [hstep] at h
          simp only at h
          have h1 := fetchStep3_counters qp qv env s m s3 hstep
          have h2 := ih s3 s2 h
          exact ⟨h2.1.trans h1.1, h2.2.trans h1.2.1⟩

/-- The whole paginated `bot3.py` fetch pass preserves the counters. -/
theorem fetchLoop3_counters (qp qv : Int) (env : DlEnv) :
    ∀ (fuel : Nat) (s s2 : FetchState) (l : List Msg),
      fetchLoop3 fuel qp qv env s l = .ok s2 →
      s2.downloadedPhotos = s.downloadedPhotos ∧
      s2.downloadedVideos = s.downloadedVideos := by
  intro fuel
  induction fuel with
  | zero =>
      intro s s2 l h
      simp only [fetchLoop3] at h
      simp at h
      subst h
      exact ⟨rfl, rfl⟩
  | succ n ih =>
      intro s s2 l
      cases l with
      | nil =>
          intro h
          simp only [fetchLoop3] at h
          simp at h
          subst h
          exact ⟨rfl, rfl⟩
      | cons m rest =>
          intro h
          rw [fetchLoop3] at h
          cases hpg : runPage3 qp qv env s ((m :: rest).take pageLimit) with
          | error e => rw [hpg] at h; simp at h
          | ok s3 =>
              rw [hpg] at h
              simp only at h
              have h1 := runPage3_counters qp qv env _ s s3 hpg
              have h2 := ih s3 s2 _ h
              exact ⟨h2.1.trans h1.1, h2.2.trans h1.2⟩

/-- A `bot3.py` channel that completes reports an all-zero summary. -/
theorem processChannel3_summary (fs0 : List String) (ch : ChannelEnv)
    (r : (Nat × Nat) × FetchState) (h : processChannel3 fs0 ch = .ok r) :
    r.1 = (0, 0) := by
  unfold processChannel3 at h
  split at h
  · cases h
  split at h
  · cases h
  cases hl : fetchLoop3 ch.history.length (channelQuotas ch).1 (channelQuotas ch).2
      ch.dlEnv ⟨0, 0, fs0, [], []⟩ ch.history with
  | error e => rw [hl] at h; simp at h
  | ok s =>
      rw [hl] at h
      simp only at h
      have hc := fetchLoop3_counters (channelQuotas ch).1 (channelQuotas ch).2
        ch.dlEnv ch.history.length ⟨0, 0, fs0, [], []⟩ s ch.history hl
      simp only [Except.ok.injEq] at h
      subst h
      simp only at hc
      rw [Prod.mk.injEq]
      exact ⟨hc.1, hc.2⟩

/-- A `bot4.py` channel that completes reports the caller's untouched
counters — an all-zero summary. -/
theorem processChannel4_summary (fs0 : List String) (ch : ChannelEnv)
    (r : (Nat × Nat) × FetchState) (h : processChannel4 fs0 ch = .ok r) :
    r.1 = (0, 0) := by
  unfold processChannel4 at h
  split at h
  · cases h
  split at h
  · cases h
  cases hl : fetchLoop4 ch.history.length (channelQuotas ch).1 (channelQuotas ch).2
      ch.dlEnv 0 0 ⟨0, 0, fs0, [], []⟩ ch.history with
  | error e => rw [hl] at h; simp at h
  | ok w =>
      rw [hl] at h
      simp only [Except.ok.injEq] at h
      subst h
      rfl

/-- Starting a task on a photo message with quota remaining invokes the
download and suspends. -/
theorem taskStart_photo (qp qv : Int) (s : FetchState) (m : Msg)
    (hm : m.media = some .photo) (hlt : (s.downloadedPhotos : Int) < qp) :
    taskStart qp qv s m
      = ({ s with started := m.id :: s.started }, .downloading m .photo) := by
  unfold taskStart
  rw [hm]
  rw [if_pos hlt]

/-- A photo task with quota remaining whose download raises leaves the
batch with an uncaught exception. -/
theorem runTask4_err (qp qv : Int) (env : DlEnv) (s : FetchState) (m : Msg)
    (hm : m.media = some .photo) (hlt : (s.downloadedPhotos : Int) < qp)
    (herr : env m = .err) : (runTask4 qp qv env s m).2 = true := by
  have hst := taskStart_photo qp qv s m hm hlt
  have hres : taskResume env { s with started := m.id :: s.started } m .photo
      = ({ s with started := m.id :: s.started }, .failed) := by
    unfold taskResume
    rw [herr]
  simp only [runTask4, hst, hres]

/-- C7: the counting pass fully drains the paginated history with no
early exit, tallying every message by classified kind (photo vs. video by
declared content-type), and does not apply the video-duration filter: a
700-second video (above the 600-second threshold, as the same attribute
list witnesses under `hasLongDuration`) is still counted as available. -/
theorem claim7_counting_pass (history : List Msg) :
    countPass history = (history.countP isPhotoMsg, history.countP isVideoMsg) ∧
    countPass [vid700] = (0, 1) ∧
    hasLongDuration [⟨some 700⟩] = true :=
  ⟨countPass_spec history, by decide, by decide⟩

/-- C6: a failure raised while processing one channel is caught at the
orchestrator boundary; the failed channel is recorded as failed and every
later channel is processed and summarized exactly as it would have been
without the failure — in both `bot4.py` and `bot3.py`. -/
theorem claim6_channel_isolation (fs0 : List String) (A B : ChannelEnv)
    (rest : List ChannelEnv)
    (h4 : processChannel4 fs0 A = .error ())
    (h3 : processChannel3 fs0 A = .error ()) :
    runHarvest4 fs0 (A :: B :: rest)
      = (A.name, none) :: runHarvest4 fs0 (B :: rest) ∧
    runHarvest3 fs0 (A :: B :: rest)
      = (A.name, none) :: runHarvest3 fs0 (B :: rest) := by
  constructor
  · simp [runHarvest4, h4]
  · simp [runHarvest3, h3]

/-- Witness for C6: a channel whose directory creation raises is recorded
as failed and the healthy channel after it is still processed. -/
theorem claim6_channel_isolation_witness :
    runHarvest4 [] (chFail :: chOk :: [])
      = (chFail.name, none) :: runHarvest4 [] (chOk :: []) ∧
    runHarvest3 [] (chFail :: chOk :: [])
      = (chFail.name, none) :: runHarvest3 [] (chOk :: []) :=
  claim6_channel_isolation [] chFail chOk [] (by rfl) (by rfl)

/-- C9: the duplicate-existence check runs only after `download_media`
has materialized the file at the returned path, so for every message
whose download succeeds and returns a path the existence test is true,
the success counter is not incremented and the publish step is not
invoked — in `bot4.py`'s task continuation and in `bot3.py`'s per-message
step alike. -/
theorem claim9_exists_check_after_download (env : DlEnv) (s : FetchState)
    (m : Msg) (k : Kind) (p : String) (h : env m = .ok p) :
    p ∈ (p :: s.files) ∧
    (taskResume env s m k).1.downloadedPhotos = s.downloadedPhotos ∧
    (taskResume env s m k).1.downloadedVideos = s.downloadedVideos ∧
    (taskResume env s m k).1.posted = s.posted ∧
    (taskResume env s m k).2 = .finished ∧
    (∀ (qp qv : Int) (s2 : FetchState), fetchStep3 qp qv env s m = .ok s2 →
      s2.downloadedPhotos = s.downloadedPhotos ∧
      s2.downloadedVideos = s.downloadedVideos ∧
      s2.posted = s.posted) :=
  ⟨List.mem_cons_self p s.files,
   (taskResume_state env s m k).1,
   (taskResume_state env s m k).2.1,
   (taskResume_state env s m k).2.2,
   taskResume_phase env s m k (by simp [h]),
   fun qp qv s2 h3 => fetchStep3_counters qp qv env s m s2 h3⟩

/-- Witness for C9 at a concrete successful download. -/
theorem claim9_exists_check_after_download_witness :
    "f" ∈ ("f" :: s0.files) ∧
    (taskResume envRace s0 photoMsgA .photo).1.downloadedPhotos
      = s0.downloadedPhotos ∧
    (taskResume envRace s0 photoMsgA .photo).1.downloadedVideos
      = s0.downloadedVideos ∧
    (taskResume envRace s0 photoMsgA .photo).1.posted = s0.posted ∧
    (taskResume envRace s0 photoMsgA .photo).2 = .finished ∧
    (∀ (qp qv : Int) (s2 : FetchState),
      fetchStep3 qp qv envRace s0 photoMsgA = .ok s2 →
      s2.downloadedPhotos = s0.downloadedPhotos ∧
      s2.downloadedVideos = s0.downloadedVideos ∧
      s2.posted = s0.posted) :=
  claim9_exists_check_after_download envRace s0 photoMsgA .photo "f" rfl

/-- C2: a download whose resulting local path already exists on disk
before the task materializes it is treated as a duplicate — no success
counter is incremented and no quota unit is restored (the counters and
the posted set are untouched); and a full `bot4.py` channel run whose
downloads all return pre-existing paths completes with an all-zero
summary, as does every completed `bot3.py` channel run. -/
theorem claim2_duplicate_skip :
    (∀ (env : DlEnv) (s : FetchState) (m : Msg) (k : Kind) (p : String),
       env m = .ok p → p ∈ s.files →
       (taskResume env s m k).1.downloadedPhotos = s.downloadedPhotos ∧
       (taskResume env s m k).1.downloadedVideos = s.downloadedVideos ∧
       (taskResume env s m k).1.posted = s.posted) ∧
    (∀ (fs0 : List String) (ch : ChannelEnv),
       ch.mkdirFails = false → ch.scanFails = false →
       (∀ m, ch.dlEnv m ≠ .err) →
       ∃ w, processChannel4 fs0 ch = .ok ((0, 0), w)) ∧
    (∀ (fs0 : List String) (ch : ChannelEnv) (r : (Nat × Nat) × FetchState),
       processChannel3 fs0 ch = .ok r → r.1 = (0, 0)) := by
  refine ⟨?_, ?_, ?_⟩
  · intro env s m k p hok hpre
    exact ⟨(taskResume_state env s m k).1, (taskResume_state env s m k).2.1,
      (taskResume_state env s m k).2.2⟩
  · intro fs0 ch hmk hsc henv
    obtain ⟨w, hw⟩ := fetchLoop4_ok (channelQuotas ch).1 (channelQuotas ch).2
      ch.dlEnv 0 0 henv ch.history.length ⟨0, 0, fs0, [], []⟩ ch.history
    exact ⟨w, by simp [processChannel4, hmk, hsc, hw]⟩
  · intro fs0 ch r h
    exact processChannel3_summary fs0 ch r h

/-- Witness for C2: a concrete duplicate download and a concrete healthy
channel re-run with an all-zero summary. -/
theorem claim2_duplicate_skip_witness :
    ((taskResume envRace ⟨0, 0, ["f"], [], []⟩ photoMsgA .photo).1.downloadedPhotos
       = (⟨0, 0, ["f"], [], []⟩ : FetchState).downloadedPhotos ∧
     (taskResume envRace ⟨0, 0, ["f"], [], []⟩ photoMsgA .photo).1.downloadedVideos
       = (⟨0, 0, ["f"], [], []⟩ : FetchState).downloadedVideos ∧
     (taskResume envRace ⟨0, 0, ["f"], [], []⟩ photoMsgA .photo).1.posted
       = (⟨0, 0, ["f"], [], []⟩ : FetchState).posted) ∧
    (∃ w, processChannel4 ["f"] chOk = .ok ((0, 0), w)) :=
  ⟨claim2_duplicate_skip.1 envRace ⟨0, 0, ["f"], [], []⟩ photoMsgA .photo "f"
     rfl (by decide),
   claim2_duplicate_skip.2.1 ["f"] chOk rfl rfl (fun m => by simp [chOk, envRace])⟩

/-- C10: `harvest_and_post_media` in `bot4.py` passes its
`downloaded_photos` / `downloaded_videos` locals to each page's
`download_and_post_media` call by value: every page's batch receives the
caller's original counter values, and the summary the caller reports
after the loop is its own untouched counters. -/
theorem claim10_counters_by_value :
    (∀ (fuel : Nat) (qp qv : Int) (env : DlEnv) (hdp hdv : Nat)
       (w : FetchState) (history : List Msg) (c : Nat × Nat),
       c ∈ fetchTrace4 fuel qp qv env hdp hdv w history → c = (hdp, hdv)) ∧
    (∀ (fs0 : List String) (ch : ChannelEnv) (r : (Nat × Nat) × FetchState),
       processChannel4 fs0 ch = .ok r → r.1 = (0, 0)) := by
  constructor
  · intro fuel
    induction fuel with
    | zero =>
        intro qp qv env hdp hdv w history c hmem
        simp [fetchTrace4] at hmem
    | succ n ih =>
        intro qp qv env hdp hdv w history c hmem
        cases history with
        | nil => simp [fetchTrace4] at hmem
        | cons m rest =>
            rw [fetchTrace4] at hmem
            split at hmem
            · simp at hmem
              exact hmem
            · rcases List.mem_cons.mp hmem with h1 | h2
              · exact h1
              · exact ih qp qv env hdp hdv _ _ c h2
  · intro fs0 ch r h
    exact processChannel4_summary fs0 ch r h

/-- Witness for C10: the single-page trace hands the batch the caller's
original counters. -/
theorem claim10_counters_by_value_witness : (0, 0) = ((0 : Nat), (0 : Nat)) :=
  claim10_counters_by_value.1 1 1 0 envRace 0 0 s0 [photoMsgA] (0, 0) (by decide)

/-- C1: for every channel and every run, per media kind, the downloads
counted are at most `min(requested, available)` where `available` is the
counting-pass tally — at every reachable point of every interleaving of
every page batch of `bot4.py`'s fetch pass, and in the completed channel
summaries of both `bot4.py` and `bot3.py` (requested counts are
operator-validated non-negative integers). -/
theorem claim1_download_bound :
    (∀ (reqP reqV : Int) (history page : List Msg) (env : DlEnv)
       (fs0 : List String) (s : FetchState) (ts : List TaskPhase),
       0 ≤ reqP → 0 ≤ reqV →
       Reaches (downloadQuota reqP (countPass history).1)
         (downloadQuota reqV (countPass history).2) env
         (⟨0, 0, fs0, [], []⟩, page.map .ready) (s, ts) →
       (s.downloadedPhotos : Int) ≤ min reqP ((countPass history).1 : Int) ∧
       (s.downloadedVideos : Int) ≤ min reqV ((countPass history).2 : Int)) ∧
    (∀ (fs0 : List String) (ch : ChannelEnv) (r : (Nat × Nat) × FetchState),
       0 ≤ ch.reqPhotos → 0 ≤ ch.reqVideos → processChannel4 fs0 ch = .ok r →
       (r.1.1 : Int) ≤ min ch.reqPhotos ((countPass ch.history).1 : Int) ∧
       (r.1.2 : Int) ≤ min ch.reqVideos ((countPass ch.history).2 : Int)) ∧
    (∀ (fs0 : List String) (ch : ChannelEnv) (r : (Nat × Nat) × FetchState),
       0 ≤ ch.reqPhotos → 0 ≤ ch.reqVideos → processChannel3 fs0 ch = .ok r →
       (r.1.1 : Int) ≤ min ch.reqPhotos ((countPass ch.history).1 : Int) ∧
       (r.1.2 : Int) ≤ min ch.reqVideos ((countPass ch.history).2 : Int)) := by
  refine ⟨?_, ?_, ?_⟩
  · intro reqP reqV history page env fs0 s ts hp hv hreach
    have hc := reaches_counters_const _ _ env _ _ hreach
    have h1 : s.downloadedPhotos = 0 := hc.1
    have h2 : s.downloadedVideos = 0 := hc.2
    rw [h1, h2]
    constructor
    · simp only [Nat.cast_zero]
      exact le_min hp (Int.natCast_nonneg _)
    · simp only [Nat.cast_zero]
      exact le_min hv (Int.natCast_nonneg _)
  · intro fs0 ch r hp hv hok
    have hs := processChannel4_summary fs0 ch r hok
    rw [hs]
    constructor
    · simp only [Nat.cast_zero]
      exact le_min hp (Int.natCast_nonneg _)
    · simp only [Nat.cast_zero]
      exact le_min hv (Int.natCast_nonneg _)
  · intro fs0 ch r hp hv hok
    have hs := processChannel3_summary fs0 ch r hok
    rw [hs]
    constructor
    · simp only [Nat.cast_zero]
      exact le_min hp (Int.natCast_nonneg _)
    · simp only [Nat.cast_zero]
      exact le_min hv (Int.natCast_nonneg _)

/-- Witness for C1 at a concrete channel run. -/
theorem claim1_download_bound_witness :
    (((0, 0) : (Nat × Nat)).1 : Int)
      ≤ min chOk.reqPhotos ((countPass chOk.history).1 : Int) ∧
    (((0, 0) : (Nat × Nat)).2 : Int)
      ≤ min chOk.reqVideos ((countPass chOk.history).2 : Int) := by
  have h := claim1_download_bound.2.1 [] chOk ((0, 0), ⟨0, 0, ["f"], [3], []⟩)
    (by decide) (by decide) (by rfl)
  exact h

/-- C8: after the counting pass the per-kind quota equals
`min(requested, available)` with `available` the full-history tally; with
operator-validated non-negative requests both quotas are non-negative at
initialization, and at every reachable point of every batch interleaving
the remaining allowance `quota - downloaded` never goes negative. -/
theorem claim8_quota_invariant (ch : ChannelEnv) (fs0 : List String)
    (page : List Msg) (s : FetchState) (ts : List TaskPhase)
    (hp : 0 ≤ ch.reqPhotos) (hv : 0 ≤ ch.reqVideos)
    (hreach : Reaches (channelQuotas ch).1 (channelQuotas ch).2 ch.dlEnv
      (⟨0, 0, fs0, [], []⟩, page.map .ready) (s, ts)) :
    channelQuotas ch
      = (min ch.reqPhotos ((ch.history.countP isPhotoMsg : Nat) : Int),
         min ch.reqVideos ((ch.history.countP isVideoMsg : Nat) : Int)) ∧
    0 ≤ (channelQuotas ch).1 ∧ 0 ≤ (channelQuotas ch).2 ∧
    0 ≤ (channelQuotas ch).1 - (s.downloadedPhotos : Int) ∧
    0 ≤ (channelQuotas ch).2 - (s.downloadedVideos : Int) := by
  have hq : channelQuotas ch
      = (min ch.reqPhotos ((countPass ch.history).1 : Int),
         min ch.reqVideos ((countPass ch.history).2 : Int)) := rfl
  have h1 : 0 ≤ (channelQuotas ch).1 := by
    rw [hq]
    exact le_min hp (Int.natCast_nonneg _)
  have h2 : 0 ≤ (channelQuotas ch).2 := by
    rw [hq]
    exact le_min hv (Int.natCast_nonneg _)
  have hc := reaches_counters_const _ _ ch.dlEnv _ _ hreach
  have hdp : s.downloadedPhotos = 0 := hc.1
  have hdv : s.downloadedVideos = 0 := hc.2
  refine ⟨?_, h1, h2, ?_, ?_⟩
  · rw [hq, countPass_spec]
  · rw [hdp]
    simpa using h1
  · rw [hdv]
    simpa using h2

/-- Witness for C8 at a concrete channel and the initial batch state. -/
theorem claim8_quota_invariant_witness :
    channelQuotas chOk
      = (min chOk.reqPhotos ((chOk.history.countP isPhotoMsg : Nat) : Int),
         min chOk.reqVideos ((chOk.history.countP isVideoMsg : Nat) : Int)) ∧
    0 ≤ (channelQuotas chOk).1 ∧ 0 ≤ (channelQuotas chOk).2 ∧
    0 ≤ (channelQuotas chOk).1
      - ((⟨0, 0, [], [], []⟩ : FetchState).downloadedPhotos : Int) ∧
    0 ≤ (channelQuotas chOk).2
      - ((⟨0, 0, [], [], []⟩ : FetchState).downloadedVideos : Int) :=
  claim8_quota_invariant chOk [] [] ⟨0, 0, [], [], []⟩ ([].map .ready)
    (by decide) (by decide) Relation.ReflTransGen.refl

/-- A `bot3.py` fetch step on a video-document message with quota
remaining always invokes the download, whatever the declared duration:
there is no duration filter in `bot3.py`'s fetch pass. -/
theorem fetchStep3_video_dl (qp qv : Int) (env : DlEnv) (s : FetchState)
    (m : Msg) (mt : String) (attrs : List Attr) (p : String)
    (hm : m.media = some (.document mt attrs))
    (hmt : strContains mt "video" = true)
    (hlt : (s.downloadedVideos : Int) < qv)
    (hok : env m = .ok p) :
    fetchStep3 qp qv env s m
      = .ok { s with files := p :: s.files, started := m.id :: s.started } := by
  simp only [fetchStep3, hm, hmt, decide_eq_true hlt, Bool.and_self, if_true]
  rw [hok]
  simp

/-- C3 counterexample: in `bot3.py`'s fetch pass a video whose declared
duration is 700 seconds (above the 600-second threshold, as
`hasLongDuration` certifies for the same attribute list) is downloaded
when video quota remains: `download_media` is invoked for it and the file
is materialized. -/
theorem claim3_counterexample :
    hasLongDuration [⟨some 700⟩] = true ∧
    fetchStep3 0 1 envRace s0 vid700
      = .ok ⟨0, 0, ["f"], [vid700.id], []⟩ :=
  ⟨by decide, by rfl⟩

/-- C3 amended: in `bot4.py`'s fetch pass a video-document carrying a
duration attribute above 600 seconds is never downloaded regardless of
quota (the task finishes without invoking `download_media`), and a video
with no declared duration is eligible and proceeds to download; `bot3.py`'s
fetch pass applies no duration filter and downloads an over-threshold
video whenever quota remains. -/
theorem claim3_duration_filter_amended :
    (∀ (qp qv : Int) (s : FetchState) (mid : Nat) (mt : String)
       (attrs : List Attr), hasLongDuration attrs = true →
       taskStart qp qv s ⟨mid, some (.document mt attrs)⟩ = (s, .finished)) ∧
    (taskStart 1 1 s0 vidUnknown).2 = .downloading vidUnknown .video ∧
    (∀ (qp qv : Int) (env : DlEnv) (s : FetchState) (p : String),
       env vid700 = .ok p → (s.downloadedVideos : Int) < qv →
       fetchStep3 qp qv env s vid700
         = .ok { s with files := p :: s.files,
                        started := vid700.id :: s.started }) := by
  refine ⟨?_, by decide, ?_⟩
  · intro qp qv s mid mt attrs hlong
    simp only [taskStart, hlong, if_true]
    split <;> rfl
  · intro qp qv env s p hok hlt
    exact fetchStep3_video_dl qp qv env s vid700 "video/mp4" [⟨some 700⟩] p
      rfl (by decide) hlt hok

/-- Witness for C3 amended: the long video's task finishes untouched even
with quota available, and `bot3.py` downloads the same video. -/
theorem claim3_duration_filter_amended_witness :
    taskStart 1 1 s0 ⟨1, some (.document "video/mp4" [⟨some 700⟩])⟩
      = (s0, .finished) ∧
    fetchStep3 1 1 envRace s0 vid700
      = .ok { s0 with files := "f" :: s0.files,
                      started := vid700.id :: s0.started } :=
  ⟨claim3_duration_filter_amended.1 1 1 s0 1 "video/mp4" [⟨some 700⟩] (by decide),
   claim3_duration_filter_amended.2.2 1 1 envRace s0 "f" rfl (by decide)⟩

/-- In the race scenario — photo quota 1, two ready photo tasks — there
is an interleaving in which both tasks pass the `downloaded_photos <
download_photos` check and both invoke their downloads, because the check
and the counter update sit on opposite sides of the `await`. -/
theorem race_reach_both :
    Reaches 1 0 envRace (s0, [.ready photoMsgA, .ready photoMsgB])
      (raceBoth, [.downloading photoMsgA .photo, .downloading photoMsgB .photo]) := by
  have e1 : taskStart 1 0 s0 photoMsgA
      = (raceMid, .downloading photoMsgA .photo) := by decide
  have e2 : taskStart 1 0 raceMid photoMsgB
      = (raceBoth, .downloading photoMsgB .photo) := by decide
  have st1 := @BatchStep.start 1 0 envRace s0
    [.ready photoMsgA, .ready photoMsgB] 0 photoMsgA (by rfl) (by decide)
  rw [e1] at st1
  have st2 := @BatchStep.start 1 0 envRace raceMid
    [.downloading photoMsgA .photo, .ready photoMsgB] 1 photoMsgB
    (by rfl) (by decide)
  rw [e2] at st2
  exact Relation.ReflTransGen.head st1
    (Relation.ReflTransGen.head st2 Relation.ReflTransGen.refl)

/-- C4 counterexample: the per-kind quota check-and-decrement is not a
single atomic step: with exactly one unit of photo quota remaining, an
interleaving of two racing tasks is reachable in which both tasks have
passed the check and both have started downloads (`started` holds both
message ids), while the counter still reads 0. -/
theorem claim4_counterexample :
    Reaches 1 0 envRace (s0, [.ready photoMsgA, .ready photoMsgB])
      (raceBoth, [.downloading photoMsgA .photo, .downloading photoMsgB .photo]) ∧
    raceBoth.started = [photoMsgB.id, photoMsgA.id] ∧
    raceBoth.downloadedPhotos = 0 :=
  ⟨race_reach_both, by decide, by decide⟩

/-- C4 amended: the quota comparison is a plain read and the counter
update happens only after the download completes (and in fact never,
because of the existence check), so two tasks racing for the last unit of
quota may both pass the check and both download; the shared counters
themselves never move in any interleaving, so they never exceed the
quota. -/
theorem claim4_race_amended :
    (Reaches 1 0 envRace (s0, [.ready photoMsgA, .ready photoMsgB])
       (raceDone, [.finished, .finished]) ∧
     raceDone.started = [photoMsgB.id, photoMsgA.id] ∧
     raceDone.downloadedPhotos = 0) ∧
    (∀ (s : FetchState) (ts : List TaskPhase),
       Reaches 1 0 envRace (s0, [.ready photoMsgA, .ready photoMsgB]) (s, ts) →
       s.downloadedPhotos = 0 ∧ s.downloadedVideos = 0) := by
  constructor
  · refine ⟨?_, by decide, by decide⟩
    have e3 : taskResume envRace raceBoth photoMsgA .photo
        = (⟨0, 0, ["f"], [4, 3], []⟩, .finished) := by decide
    have e4 : taskResume envRace ⟨0, 0, ["f"], [4, 3], []⟩ photoMsgB .photo
        = (raceDone, .finished) := by decide
    have st3 := @BatchStep.resume 1 0 envRace raceBoth
      [.downloading photoMsgA .photo, .downloading photoMsgB .photo] 0
      photoMsgA .photo (by rfl)
    rw [e3] at st3
    have st4 := @BatchStep.resume 1 0 envRace ⟨0, 0, ["f"], [4, 3], []⟩
      [.finished, .downloading photoMsgB .photo] 1 photoMsgB .photo (by rfl)
    rw [e4] at st4
    exact Relation.ReflTransGen.trans race_reach_both
      (Relation.ReflTransGen.head st3
        (Relation.ReflTransGen.head st4 Relation.ReflTransGen.refl))
  · intro s ts h
    have hc := reaches_counters_const 1 0 envRace _ _ h
    exact ⟨hc.1, hc.2⟩

/-- Witness for C4 amended at the initial state of the race. -/
theorem claim4_race_amended_witness :
    s0.downloadedPhotos = 0 ∧ s0.downloadedVideos = 0 :=
  claim4_race_amended.2 s0 [.ready photoMsgA, .ready photoMsgB]
    Relation.ReflTransGen.refl

/-- C5 counterexample: a failure raised inside a worker task is not
caught at the task level: the task ends `failed` (flag `true`), and the
exception escapes `asyncio.gather` and aborts the channel's fetch loop,
which returns an error instead of completing the batch. -/
theorem claim5_counterexample :
    (runTask4 1 0 envErr s0 mErr).2 = true ∧
    fetchLoop4 1 1 0 envErr 0 0 s0 [mErr] = .error () :=
  ⟨by decide, by rfl⟩

/-- C5 amended: a download error inside a worker task propagates out of
the page's `asyncio.gather` and aborts that channel's fetch pass; it is
caught only at the per-channel orchestrator boundary, which records the
channel as failed and continues with the remaining channels unchanged. -/
theorem claim5_worker_failure_amended :
    (∀ (qp qv : Int) (env : DlEnv) (hdp hdv : Nat) (w : FetchState) (m : Msg),
       m.media = some .photo → (hdp : Int) < qp → env m = .err →
       fetchLoop4 1 qp qv env hdp hdv w [m] = .error ()) ∧
    (∀ (fs0 : List String) (ch : ChannelEnv) (rest : List ChannelEnv),
       processChannel4 fs0 ch = .error () →
       runHarvest4 fs0 (ch :: rest) = (ch.name, none) :: runHarvest4 fs0 rest) := by
  constructor
  · intro qp qv env hdp hdv w m hm hlt herr
    have hflag : (runTask4 qp qv env
        { w with downloadedPhotos := hdp, downloadedVideos := hdv } m).2 = true :=
      runTask4_err qp qv env _ m hm hlt herr
    rw [fetchLoop4]
    have hb : (runBatch4 qp qv env
        ({ w with downloadedPhotos := hdp, downloadedVideos := hdv }, false)
        (([m] : List Msg).take pageLimit)).2 = true := by
      show (runBatch4 qp qv env
        ({ w with downloadedPhotos := hdp, downloadedVideos := hdv }, false)
        [m]).2 = true
      rw [runBatch4, runBatch4]
      simp [hflag]
    rw [hb]
    simp
  · intro fs0 ch rest h
    simp [runHarvest4, h]

/-- Witness for C5 amended: the concrete raising download aborts the
fetch, and the failed channel does not stop the next one. -/
theorem claim5_worker_failure_amended_witness :
    fetchLoop4 1 1 0 envErr 0 0 ⟨0, 0, [], [], []⟩ [mErr] = .error () ∧
    runHarvest4 [] (chFail :: chOk :: [])
      = (chFail.name, none) :: runHarvest4 [] (chOk :: []) :=
  ⟨claim5_worker_failure_amended.1 1 0 envErr 0 0 ⟨0, 0, [], [], []⟩ mErr
     rfl (by decide) rfl,
   claim5_worker_failure_amended.2 [] chFail (chOk :: []) (by rfl)⟩
